import Mathlib

/-!
Shallow embedding of the LUCID_TOOL_BACKEND Flask proxy (src/lucid.py,
src/chatgolem.py, src/api/index.py): the CORS policy decisions made by the
preflight and POST handlers, request-body validation, temperature/seed
resolution, and construction of the outbound upstream payload.

JSON request bodies are modelled by the inductive `JVal` (standard JSON
values, with numbers as rationals); Python truthiness, `float()` and `int()`
coercions, and `dict.get` are modelled explicitly.  The upstream network
call itself is not modelled: each handler is embedded up to the point where
it either produces an error response or hands a concrete payload to
`requests.post`.
-/

namespace LucidTool

/-- A standard JSON value, as produced by Python's `json.loads`.
Numbers are modelled as rationals (JSON integer and decimal literals are
exact; the handlers only compare and forward them). -/
inductive JVal where
  | null
  | bool (b : Bool)
  | num (q : ℚ)
  | str (s : String)
  | arr (elems : List JVal)
  | obj (fields : List (String × JVal))

/-- Raw dictionary lookup: `d[k]` for a `json.loads` object, where a later
binding of the same key overwrites an earlier one (as in a Python dict).
Returns `none` when the key is absent. -/
def dictGet (fields : List (String × JVal)) (k : String) : Option JVal :=
  (fields.reverse.find? (fun p => p.1 = k)).map Prod.snd

/-- Models `body.get(k)` followed by an `is not None` test: the result is
`none` both when the key is absent and when the stored value is JSON null
(Python `None`). Used for the optional `temperature` and `seed` fields. -/
def dictGetOrNone (fields : List (String × JVal)) (k : String) : Option JVal :=
  match dictGet fields k with
  | none => none
  | some JVal.null => none
  | some v => some v

/-- Python truthiness of a decoded JSON value (`not messages` in the source):
`None`, `False`, `0`, `""`, `[]` and `{}` are falsy. -/
def jvTruthy : JVal → Bool
  | JVal.null => false
  | JVal.bool b => b
  | JVal.num q => q ≠ 0
  | JVal.str s => s ≠ ""
  | JVal.arr xs => ¬ xs.isEmpty
  | JVal.obj kvs => ¬ kvs.isEmpty

/-- Models `isinstance(x, list)` on a decoded JSON value. -/
def jvIsList : JVal → Bool
  | JVal.arr _ => true
  | _ => false

/-- Value of a list of decimal digit characters. -/
def digitsToNat (cs : List Char) : ℕ :=
  cs.foldl (fun a c => a * 10 + (c.toNat - 48)) 0

/-- Models Python `str.strip()`: removes leading and trailing whitespace. -/
def pyStrip (cs : List Char) : List Char :=
  ((cs.dropWhile Char.isWhitespace).reverse.dropWhile Char.isWhitespace).reverse

/-- Models Python `str.split(',')`: splits at every comma, keeping empty
pieces (so the empty string yields one empty piece). -/
def splitOnComma (cs : List Char) : List (List Char) :=
  cs.foldr
    (fun c acc =>
      match acc with
      | [] => [[c]]
      | a :: rest => if c = ',' then [] :: a :: rest else (c :: a) :: rest)
    [[]]

/-- Models Python `int(s)` on a string: optional surrounding whitespace, an
optional sign, then a nonempty run of decimal digits; anything else raises
`ValueError` (modelled as `none`).  (Underscore digit separators are not
modelled; no input in this development uses them.) -/
def pyIntOfString (s : String) : Option ℤ :=
  match pyStrip s.toList with
  | [] => none
  | c :: rest =>
    if c = '+' ∨ c = '-' then
      if ¬ rest.isEmpty ∧ rest.all Char.isDigit then
        some (if c = '-' then -(digitsToNat rest : ℤ) else (digitsToNat rest : ℤ))
      else none
    else if (c :: rest).all Char.isDigit then
      some (digitsToNat (c :: rest) : ℤ)
    else none

/-- Strips a leading sign, returning whether it was a minus sign. -/
def readSign : List Char → Bool × List Char
  | '-' :: rest => (true, rest)
  | '+' :: rest => (false, rest)
  | cs => (false, cs)

/-- Parses the mantissa of a float literal: `digits`, `digits.digits`,
`.digits` or `digits.`, with at least one digit overall. -/
def mantissa? (cs : List Char) : Option ℚ :=
  let intPart := cs.takeWhile Char.isDigit
  match cs.dropWhile Char.isDigit with
  | [] => if intPart.isEmpty then none else some (digitsToNat intPart : ℚ)
  | '.' :: frac =>
    if frac.all Char.isDigit ∧ ¬ (intPart.isEmpty ∧ frac.isEmpty) then
      some ((digitsToNat intPart : ℚ) + (digitsToNat frac : ℚ) / (10 : ℚ) ^ frac.length)
    else none
  | _ => none

/-- Models Python `float(s)` on a string: optional whitespace and sign, a
decimal mantissa, and an optional `e`/`E` exponent.  The non-finite literals
`inf`/`nan` are modelled as parse failures: the handlers only use the parsed
value in the range test `0.0 <= t <= 2.0`, which fails for every non-finite
value, so both modellings resolve to the same default temperature. -/
def pyFloatOfString (s : String) : Option ℚ :=
  let (neg, cs) := readSign (pyStrip s.toList)
  let mPart := cs.takeWhile (fun c => c ≠ 'e' ∧ c ≠ 'E')
  let expVal : Option ℤ :=
    match cs.dropWhile (fun c => c ≠ 'e' ∧ c ≠ 'E') with
    | [] => some 0
    | _ :: ecs =>
      let (eneg, eds) := readSign ecs
      if ¬ eds.isEmpty ∧ eds.all Char.isDigit then
        some (if eneg then -(digitsToNat eds : ℤ) else (digitsToNat eds : ℤ))
      else none
  match mantissa? mPart, expVal with
  | some m, some e => some (if neg then -(m * (10 : ℚ) ^ e) else m * (10 : ℚ) ^ e)
  | _, _ => none

/-- Models Python `float(x)` on a decoded JSON value: numbers convert
exactly, booleans to 0/1, strings are parsed, and every other type raises
`TypeError` (modelled as `none`). -/
def pyFloat : JVal → Option ℚ
  | JVal.num q => some q
  | JVal.bool b => some (if b then 1 else 0)
  | JVal.str s => pyFloatOfString s
  | _ => none

/-- Models Python `int(x)` on a decoded JSON value: numbers truncate toward
zero (`int(3.9) = 3`, `int(-3.9) = -3`; integers are unchanged), booleans
convert to 0/1, strings are parsed as integer literals, and every other
type raises `TypeError` (modelled as `none`). -/
def pyInt : JVal → Option ℤ
  | JVal.num q => some (q.num.tdiv (q.den : ℤ))
  | JVal.bool b => some (if b then 1 else 0)
  | JVal.str s => pyIntOfString s
  | _ => none

/-- Python truthiness of an optional string (an environment variable that
may be unset or empty). -/
def strTruthy (s : Option String) : Bool :=
  s.getD "" ≠ ""

/-- Models `a or b` on two optional strings (the two historical names of the
API key environment variable in src/lucid.py line 274). -/
def pyOrStr (a b : Option String) : Option String :=
  if strTruthy a then a else b

/-- Embeds `get_allowed_origins_config` (src/lucid.py lines 21-38 and
src/chatgolem.py lines 15-26, identical logic): an unset or empty
`ALLOWED_ORIGINS` defaults to `['*']`; otherwise the value is split on
commas, each piece stripped of whitespace, and empty pieces dropped. -/
def get_allowed_origins_config (origins_str : Option String) : List String :=
  match origins_str with
  | none => ["*"]
  | some s =>
    if s = "" then ["*"]
    else ((splitOnComma s.toList).map (fun cs => String.mk (pyStrip cs))).filter
      (fun o => o ≠ "")

/-- A response as far as the CORS layer is concerned: a status code and the
list of headers set by the handler, in the order they are set. -/
structure HttpResponse where
  status : ℕ
  headers : List (String × String)

/-- Embeds `handle_preflight` of src/lucid.py (lines 40-109) for an OPTIONS
request to `/lucid`.  `origin` is the request's `Origin` header (absent or a
string), `origins_str` the raw `ALLOWED_ORIGINS` environment variable, and
`req_hdrs` the value of `Access-Control-Request-Headers` (the source reads
it with default `''`).  Wildcard policy reflects `*` without credentials; an
exact match on a truthy origin reflects it with credentials `true`; any
other origin is denied with a bare 403. -/
def lucid_handle_preflight (origin : Option String) (origins_str : Option String)
    (req_hdrs : String) : HttpResponse :=
  let allowed_origins := get_allowed_origins_config origins_str
  if "*" ∈ allowed_origins then
    { status := 204,
      headers :=
        [("Access-Control-Allow-Origin", "*"),
         ("Access-Control-Allow-Methods", "POST, OPTIONS"),
         ("Access-Control-Allow-Headers", if req_hdrs ≠ "" then req_hdrs else "Content-Type"),
         ("Access-Control-Max-Age", "86400")] }
  else if origin.getD "" ≠ "" ∧ origin.getD "" ∈ allowed_origins then
    { status := 204,
      headers :=
        [("Access-Control-Allow-Origin", origin.getD ""),
         ("Access-Control-Allow-Methods", "POST, OPTIONS"),
         ("Access-Control-Allow-Headers", if req_hdrs ≠ "" then req_hdrs else "Content-Type"),
         ("Access-Control-Max-Age", "86400"),
         ("Access-Control-Allow-Credentials", "true")] }
  else
    { status := 403, headers := [] }

/-- Embeds `handle_preflight` of src/chatgolem.py (lines 29-81) for an
OPTIONS request to `/chatgolem`.  Unlike the lucid.py version, the
`Access-Control-Allow-Credentials` header is always included in an allowed
response, carrying the string `allow_credentials_value`, which is `'false'`
under the wildcard policy and `'true'` for a reflected specific origin. -/
def chatgolem_handle_preflight (origin : Option String)
    (origins_str : Option String) : HttpResponse :=
  let allowed_origins := get_allowed_origins_config origins_str
  let dec : Option String × String :=
    if "*" ∈ allowed_origins then (some "*", "false")
    else if origin.getD "" ≠ "" ∧ origin.getD "" ∈ allowed_origins then (origin, "true")
    else (none, "false")
  match dec.1 with
  | some o =>
    { status := 204,
      headers :=
        [("Access-Control-Allow-Origin", o),
         ("Access-Control-Allow-Methods", "POST, OPTIONS"),
         ("Access-Control-Allow-Headers", "Content-Type"),
         ("Access-Control-Allow-Credentials", dec.2),
         ("Access-Control-Max-Age", "86400")] }
  | none => { status := 403, headers := [] }

/-- Embeds the temperature resolution of src/lucid.py lines 307-313 (the
identical logic appears in src/chatgolem.py lines 184-199):
`temp_from_frontend` is `body.get('temperature')` (so `none` covers both an
absent key and JSON null); absence, a failed `float()` conversion, or a
value outside `[0.0, 2.0]` all leave the default `1.0`. -/
def resolve_temperature (temp_from_frontend : Option JVal) : ℚ :=
  match temp_from_frontend with
  | none => 1
  | some v =>
    match pyFloat v with
    | some parsed_temp => if 0 ≤ parsed_temp ∧ parsed_temp ≤ 2 then parsed_temp else 1
    | none => 1

/-- Embeds the seed resolution of src/lucid.py lines 317-320 (identical
logic in src/chatgolem.py lines 203-214): absence or a failed `int()`
conversion leaves the default `None`. -/
def resolve_seed (seed_from_frontend : Option JVal) : Option ℤ :=
  match seed_from_frontend with
  | none => none
  | some v => pyInt v

/-- The `resolveParameters` operation of the spec, as realised by the
source: resolves the optional `temperature` and `seed` fields of the
request body to the values forwarded upstream. -/
def resolve_parameters (temp seed : Option JVal) : ℚ × Option ℤ :=
  (resolve_temperature temp, resolve_seed seed)

/-- Outcome of a POST handler body up to the upstream call: either an error
response produced before any network activity (`errorResp` with the
`error` field, the optional `message` field, and the HTTP status), or a
hand-off to `requests.post` with the given JSON payload (an ordered list of
key/value pairs, as the source builds the dict). -/
inductive CoreOutcome where
  | errorResp (error : String) (message : Option String) (status : ℕ)
  | callUpstream (payload : List (String × JVal))

/-- The HTTP status of a pre-upstream error response, if any. -/
def CoreOutcome.status? : CoreOutcome → Option ℕ
  | CoreOutcome.errorResp _ _ s => some s
  | CoreOutcome.callUpstream _ => none

/-- The `error` field of a pre-upstream error response, if any. -/
def CoreOutcome.error? : CoreOutcome → Option String
  | CoreOutcome.errorResp e _ _ => some e
  | CoreOutcome.callUpstream _ => none

/-- Whether the handler reaches the upstream `requests.post` call. -/
def CoreOutcome.callsUpstream : CoreOutcome → Bool
  | CoreOutcome.errorResp _ _ _ => false
  | CoreOutcome.callUpstream _ => true

/-- The payload handed to `requests.post`, if the call is reached. -/
def CoreOutcome.payload? : CoreOutcome → Option (List (String × JVal))
  | CoreOutcome.errorResp _ _ _ => none
  | CoreOutcome.callUpstream p => some p

/-- Embeds Steps 2-4 of the `lucid` route body (src/lucid.py lines 260-342):
everything after the CORS gate, up to the upstream call.  `body?` is the
result of `json.loads` (`none` = `JSONDecodeError`, handled at line 396 with
a 400); `key1`/`key2` are the `OPENAI_API_KEY` / `openai_api_key`
environment variables.  A missing key yields the 500 configuration error
(lines 286-290) before any parameter extraction; a falsy or non-list
`messages` value yields the 400 (lines 301-304); otherwise the payload of
lines 330-337 is built, including `seed` only when one resolved.  A body
that is not a JSON object makes `body.get` raise `AttributeError`, caught
by the catch-all at line 401 as a 500. -/
def lucid_core (body? : Option JVal) (key1 key2 : Option String) : CoreOutcome :=
  match body? with
  | none => CoreOutcome.errorResp "Bad Request" (some "Invalid JSON format in request body.") 400
  | some body =>
    let openai_api_key := pyOrStr key1 key2
    if ¬ strTruthy openai_api_key then
      CoreOutcome.errorResp "Configuration Error" (some "OpenAI API key not configured on server.") 500
    else
      match body with
      | JVal.obj fields =>
        let model := (dictGet fields "model").getD (JVal.str "gpt-4o")
        let messages := (dictGet fields "messages").getD (JVal.arr [])
        if ¬ jvTruthy messages ∨ ¬ jvIsList messages then
          CoreOutcome.errorResp "Bad Request" (some "Messages list is missing, empty, or invalid.") 400
        else
          let used_temperature := resolve_temperature (dictGetOrNone fields "temperature")
          let used_seed := resolve_seed (dictGetOrNone fields "seed")
          CoreOutcome.callUpstream
            ([("model", model), ("messages", messages),
              ("temperature", JVal.num used_temperature)] ++
             (match used_seed with
              | some s => [("seed", JVal.num (s : ℚ))]
              | none => []))
      | _ =>
        CoreOutcome.errorResp "Internal Server Error"
          (some "An unexpected error occurred processing the request.") 500

/-- Embeds the `chatgolem` route body after the CORS gate (src/chatgolem.py
lines 151-271) up to the upstream call.  A `json.loads` failure is caught
only by the catch-all `except Exception` (line 268), giving a 500; a missing
`openai_api_key` gives the 500 of lines 170-173; an empty (falsy) `messages`
value gives the 400 of lines 177-180 — note this check, unlike lucid.py's,
does not require `messages` to be a list; the payload of lines 220-226
includes `seed` only when one resolved. -/
def chatgolem_core (body? : Option JVal) (key : Option String) : CoreOutcome :=
  match body? with
  | none => CoreOutcome.errorResp "INTERNAL_SERVER_ERROR" (some "Error processing request.") 500
  | some body =>
    if ¬ strTruthy key then
      CoreOutcome.errorResp "OpenAI API key not found" none 500
    else
      match body with
      | JVal.obj fields =>
        let model := (dictGet fields "model").getD (JVal.str "gpt-3.5-turbo")
        let messages := (dictGet fields "messages").getD (JVal.arr [])
        if ¬ jvTruthy messages then
          CoreOutcome.errorResp "Invalid input" (some "Messages list cannot be empty.") 400
        else
          let used_temperature := resolve_temperature (dictGetOrNone fields "temperature")
          let used_seed := resolve_seed (dictGetOrNone fields "seed")
          CoreOutcome.callUpstream
            ([("model", model), ("messages", messages),
              ("temperature", JVal.num used_temperature)] ++
             (match used_seed with
              | some s => [("seed", JVal.num (s : ℚ))]
              | none => []))
      | _ =>
        CoreOutcome.errorResp "INTERNAL_SERVER_ERROR" (some "Error processing request.") 500

/-- Outcome of the `chatgolem` handler of src/api/index.py: like
`CoreOutcome`, plus `crash` for the unhandled `AttributeError` raised by
`body.get` (line 52, outside any try block) when the decoded body is not a
JSON object. -/
inductive IndexOutcome where
  | errorResp (error : String) (status : ℕ)
  | callUpstream (payload : List (String × JVal))
  | crash

/-- Whether the src/api/index.py handler reaches the upstream call. -/
def IndexOutcome.callsUpstream : IndexOutcome → Bool
  | IndexOutcome.callUpstream _ => true
  | _ => false

/-- The HTTP status of a pre-upstream error response, if any. -/
def IndexOutcome.status? : IndexOutcome → Option ℕ
  | IndexOutcome.errorResp _ s => some s
  | _ => none

/-- The keys of the payload handed to `requests.post`, if the call is
reached. -/
def IndexOutcome.payloadKeys? : IndexOutcome → Option (List String)
  | IndexOutcome.callUpstream p => some (p.map Prod.fst)
  | _ => none

/-- Embeds the POST branch of `chatgolem` in src/api/index.py (lines 36-65)
up to the upstream call: a `json.loads` failure yields the 400 of line 44; a
missing `openai_api_key` yields the 500 of line 50; otherwise the payload
`{'model': model, 'messages': messages}` of line 60 is sent — there is no
validation of `messages` at all (`validate_chat_input`, lines 93-95, is an
unused stub returning `True`), and the payload carries neither
`temperature` nor `seed`.

Note, however, that this module can never serve a request: line 1 of
src/api/index.py reads `f# -*- coding: utf-8 -*-`, whose first statement is
the bare expression `f`, raising `NameError` the moment the module is
imported.  The function below transcribes the handler's code, but the code
is unreachable in the deployed program; the live endpoints are lucid.py's
`/lucid` and chatgolem.py's `/chatgolem`. -/
def index_chatgolem (body? : Option JVal) (key : Option String) : IndexOutcome :=
  match body? with
  | none => IndexOutcome.errorResp "Invalid request payload" 400
  | some body =>
    if ¬ strTruthy key then
      IndexOutcome.errorResp "OpenAI API key not found" 500
    else
      match body with
      | JVal.obj fields =>
        let model := (dictGet fields "model").getD (JVal.str "gpt-3.5-turbo")
        let messages := (dictGet fields "messages").getD (JVal.arr [])
        IndexOutcome.callUpstream [("model", model), ("messages", messages)]
      | _ => IndexOutcome.crash

/-- A full POST response of the `/lucid` or `/chatgolem` route: the status
(`none` when it depends on the upstream response, which is not modelled),
the `error` field of a pre-upstream error body, the headers set on the
response, and the upstream payload when the call is reached. -/
structure PostResponse where
  status? : Option ℕ
  error? : Option String
  headers : List (String × String)
  upstream? : Option (List (String × JVal))

/-- Embeds the `lucid` route (src/lucid.py lines 209-428).  Step 1 decides
the CORS policy exactly as in lines 231-244; a denied origin returns the
403 of lines 247-257, whose header-attaching branch is guarded by
`origin_to_send`; an allowed request runs `lucid_core` and then Step 7
(lines 411-425) sets `Access-Control-Allow-Origin`, `Vary: Origin`,
`Access-Control-Allow-Credentials` only when it is `'true'`, and
`Content-Type`. -/
def lucid (origin : Option String) (origins_str : Option String)
    (body? : Option JVal) (key1 key2 : Option String) : PostResponse :=
  let allowed_origins := get_allowed_origins_config origins_str
  let dec : Option String × Bool × Bool :=
    if "*" ∈ allowed_origins then (some "*", false, true)
    else if origin.getD "" ≠ "" ∧ origin.getD "" ∈ allowed_origins then (origin, true, true)
    else (none, false, false)
  let origin_to_send := dec.1
  let allow_credentials_post := dec.2.1
  let is_request_allowed := dec.2.2
  if ¬ is_request_allowed then
    { status? := some 403, error? := some "Forbidden",
      headers :=
        match origin_to_send with
        | some o =>
          [("Access-Control-Allow-Origin", o), ("Vary", "Origin")] ++
          (if allow_credentials_post then [("Access-Control-Allow-Credentials", "true")] else [])
        | none => [],
      upstream? := none }
  else
    let core := lucid_core body? key1 key2
    { status? := core.status?, error? := core.error?,
      headers :=
        [("Access-Control-Allow-Origin", origin_to_send.getD ""), ("Vary", "Origin")] ++
        (if allow_credentials_post then [("Access-Control-Allow-Credentials", "true")] else []) ++
        [("Content-Type", "application/json")],
      upstream? := core.payload? }

/-- Embeds the `chatgolem` route of src/chatgolem.py (lines 110-281).  The
CORS decision of lines 127-141 gates the request (denial is the bare
jsonify 403 of line 149, with no CORS headers); an allowed request runs
`chatgolem_core` and then lines 276-280 set `Access-Control-Allow-Origin`,
`Vary: Origin`, and — always — `Access-Control-Allow-Credentials` carrying
the string `allow_credentials` (`'false'` under the wildcard). -/
def chatgolem (origin : Option String) (origins_str : Option String)
    (body? : Option JVal) (key : Option String) : PostResponse :=
  let allowed_origins := get_allowed_origins_config origins_str
  let dec : Option String × String × Bool :=
    if "*" ∈ allowed_origins then (some "*", "false", true)
    else if origin.getD "" ≠ "" ∧ origin.getD "" ∈ allowed_origins then (origin, "true", true)
    else (none, "false", false)
  let origin_to_send := dec.1
  let allow_credentials := dec.2.1
  let is_request_allowed := dec.2.2
  if ¬ is_request_allowed then
    { status? := some 403, error? := some "Forbidden", headers := [], upstream? := none }
  else
    let core := chatgolem_core body? key
    { status? := core.status?, error? := core.error?,
      headers :=
        [("Access-Control-Allow-Origin", origin_to_send.getD ""), ("Vary", "Origin"),
         ("Access-Control-Allow-Credentials", allow_credentials)],
      upstream? := core.payload? }

/-- Whether a header with the given name appears in the list. -/
def hasHeader (hs : List (String × String)) (k : String) : Bool :=
  hs.any (fun p => p.1 == k)

/-- The credentials invariant on a header list: every
`Access-Control-Allow-Credentials` header carries the literal value `true`,
and none is present at all when `Access-Control-Allow-Origin` is the
wildcard. -/
def credsOk (hs : List (String × String)) : Bool :=
  (hs.all fun p => p.1 != "Access-Control-Allow-Credentials" || p.2 == "true") &&
  (!(hs.contains ("Access-Control-Allow-Origin", "*")) ||
   !(hasHeader hs "Access-Control-Allow-Credentials"))

/-- Follows the spec's words (§4, `parseRequest`): a valid message entry is
an object whose `role` is one of `system`/`user`/`assistant` and whose
`content` is a string.  (The source performs no such per-entry check; this
definition exists to state that divergence.) -/
def specValidEntry : JVal → Bool
  | JVal.obj fields =>
    (match dictGet fields "role" with
     | some (JVal.str r) => r = "system" ∨ r = "user" ∨ r = "assistant"
     | _ => false) &&
    (match dictGet fields "content" with
     | some (JVal.str _) => true
     | _ => false)
  | _ => false

/-! ### Helper lemmas -/

/-- The resolved temperature always lies in `[0, 2]`: either an in-range
parsed value was kept, or the default `1.0` applies. -/
theorem resolve_temperature_mem_range (t : Option JVal) :
    0 ≤ resolve_temperature t ∧ resolve_temperature t ≤ 2 := by
  rcases t with _ | v
  · simp [resolve_temperature]
  · rcases h : pyFloat v with _ | q <;> simp only [resolve_temperature, h]
    · norm_num
    · by_cases hr : 0 ≤ q ∧ q ≤ 2
      · rw [if_pos hr]; exact hr
      · rw [if_neg hr]; norm_num

/-- A rational in `[0, 2]` fed back through the temperature resolution as a
JSON number is kept unchanged. -/
theorem resolve_temperature_num_of_mem (q : ℚ) (h0 : 0 ≤ q) (h2 : q ≤ 2) :
    resolve_temperature (some (JVal.num q)) = q := by
  rw [resolve_temperature]
  simp only [pyFloat]
  rw [if_pos ⟨h0, h2⟩]

/-- An integer fed back through the seed resolution as a JSON number is
kept unchanged (`int()` truncation is the identity on integers). -/
theorem resolve_seed_intCast (z : ℤ) :
    resolve_seed (some (JVal.num (z : ℚ))) = some z := by
  rw [resolve_seed]
  simp only [pyInt]
  rw [Rat.num_intCast, Rat.den_intCast]
  norm_num

/-- The `lucid` route body never produces a 403 on its own: the only
pre-upstream statuses are 400 and 500 (403 comes only from the CORS gate). -/
theorem lucid_core_status_ne_403 (body? : Option JVal) (key1 key2 : Option String) :
    (lucid_core body? key1 key2).status? ≠ some 403 := by
  rcases body? with _ | body
  · simp [lucid_core, CoreOutcome.status?]
  · by_cases hk : strTruthy (pyOrStr key1 key2)
    · rcases body with _ | _ | _ | _ | _ | fields <;>
        simp only [lucid_core, hk, Bool.not_true, Bool.false_eq_true, if_false] <;>
        (try split) <;> (try split) <;> simp [CoreOutcome.status?]
    · simp [lucid_core, hk, CoreOutcome.status?]

/-- Unfolding lemma: with a configured key and a truthy list `messages`
value, the `lucid` route body reaches the upstream call with the payload of
src/lucid.py lines 330-337. -/
theorem lucid_core_obj_eq (fields : List (String × JVal)) (key1 key2 : Option String)
    (hk : strTruthy (pyOrStr key1 key2) = true)
    (hm : jvTruthy ((dictGet fields "messages").getD (JVal.arr [])) = true)
    (hl : jvIsList ((dictGet fields "messages").getD (JVal.arr [])) = true) :
    lucid_core (some (JVal.obj fields)) key1 key2 =
      CoreOutcome.callUpstream
        ([("model", (dictGet fields "model").getD (JVal.str "gpt-4o")),
          ("messages", (dictGet fields "messages").getD (JVal.arr [])),
          ("temperature", JVal.num (resolve_temperature (dictGetOrNone fields "temperature")))] ++
         (match resolve_seed (dictGetOrNone fields "seed") with
          | some s => [("seed", JVal.num (s : ℚ))]
          | none => [])) := by
  simp [lucid_core, hk, hm, hl]

/-- Unfolding lemma: with a configured key and a falsy or non-list
`messages` value, the `lucid` route body answers the 400 of src/lucid.py
lines 301-304. -/
theorem lucid_core_obj_invalid (fields : List (String × JVal)) (key1 key2 : Option String)
    (hk : strTruthy (pyOrStr key1 key2) = true)
    (hbad : jvTruthy ((dictGet fields "messages").getD (JVal.arr [])) = false ∨
      jvIsList ((dictGet fields "messages").getD (JVal.arr [])) = false) :
    lucid_core (some (JVal.obj fields)) key1 key2 =
      CoreOutcome.errorResp "Bad Request" (some "Messages list is missing, empty, or invalid.") 400 := by
  rcases hbad with hbad | hbad <;> simp [lucid_core, hk, hbad]

/-- Unfolding lemma: with a configured key and a truthy `messages` value,
the chatgolem.py route body reaches the upstream call with the payload of
src/chatgolem.py lines 220-226. -/
theorem chatgolem_core_obj_eq (fields : List (String × JVal)) (key : Option String)
    (hk : strTruthy key = true)
    (hm : jvTruthy ((dictGet fields "messages").getD (JVal.arr [])) = true) :
    chatgolem_core (some (JVal.obj fields)) key =
      CoreOutcome.callUpstream
        ([("model", (dictGet fields "model").getD (JVal.str "gpt-3.5-turbo")),
          ("messages", (dictGet fields "messages").getD (JVal.arr [])),
          ("temperature", JVal.num (resolve_temperature (dictGetOrNone fields "temperature")))] ++
         (match resolve_seed (dictGetOrNone fields "seed") with
          | some s => [("seed", JVal.num (s : ℚ))]
          | none => [])) := by
  simp [chatgolem_core, hk, hm]

/-- On an allowed request the `lucid` route's status, error field and
upstream payload are exactly those of the route body `lucid_core`. -/
theorem lucid_allowed_proj (origin origins_str : Option String) (body? : Option JVal)
    (key1 key2 : Option String)
    (halw : "*" ∈ get_allowed_origins_config origins_str ∨
      (origin.getD "" ≠ "" ∧ origin.getD "" ∈ get_allowed_origins_config origins_str)) :
    (lucid origin origins_str body? key1 key2).status? = (lucid_core body? key1 key2).status? ∧
    (lucid origin origins_str body? key1 key2).error? = (lucid_core body? key1 key2).error? ∧
    (lucid origin origins_str body? key1 key2).upstream? = (lucid_core body? key1 key2).payload? := by
  by_cases hw : "*" ∈ get_allowed_origins_config origins_str
  · simp [lucid, hw]
  · rcases halw with hw' | ho
    · exact absurd hw' hw
    · simp [lucid, hw, ho]

/-- On an allowed request the chatgolem.py route's status, error field and
upstream payload are exactly those of the route body `chatgolem_core`. -/
theorem chatgolem_allowed_proj (origin origins_str : Option String) (body? : Option JVal)
    (key : Option String)
    (halw : "*" ∈ get_allowed_origins_config origins_str ∨
      (origin.getD "" ≠ "" ∧ origin.getD "" ∈ get_allowed_origins_config origins_str)) :
    (chatgolem origin origins_str body? key).status? = (chatgolem_core body? key).status? ∧
    (chatgolem origin origins_str body? key).error? = (chatgolem_core body? key).error? ∧
    (chatgolem origin origins_str body? key).upstream? = (chatgolem_core body? key).payload? := by
  by_cases hw : "*" ∈ get_allowed_origins_config origins_str
  · simp [chatgolem, hw]
  · rcases halw with hw' | ho
    · exact absurd hw' hw
    · simp [chatgolem, hw, ho]

/-! ### Claims -/

/-- Claim C1, counterexample: the claim states that a response never
carries `Access-Control-Allow-Credentials` with value `"false"` and never
carries it together with a wildcard `Access-Control-Allow-Origin`; but the
chatgolem.py preflight handler, under the default wildcard policy (unset
`ALLOWED_ORIGINS`), answers 204 with both
`Access-Control-Allow-Origin: *` and
`Access-Control-Allow-Credentials: false`. -/
theorem C1_counterexample :
    (chatgolem_handle_preflight none none).status = 204 ∧
    ("Access-Control-Allow-Origin", "*") ∈ (chatgolem_handle_preflight none none).headers ∧
    ("Access-Control-Allow-Credentials", "false") ∈
      (chatgolem_handle_preflight none none).headers := by
  decide

/-- Claim C1, amended: for the lucid.py handlers (preflight OPTIONS and
POST `/lucid`) and every configured allow-list, whenever a response carries
`Access-Control-Allow-Credentials` its value is `"true"`, and the header
is absent whenever the reflected origin is the wildcard; chatgolem.py
instead always emits the header on allowed responses, with the value
`"false"` under the wildcard policy. -/
theorem C1_amended_theorem (origin origins_str : Option String) (req_hdrs : String)
    (body? : Option JVal) (key1 key2 key : Option String) :
    credsOk (lucid_handle_preflight origin origins_str req_hdrs).headers = true ∧
    credsOk (lucid origin origins_str body? key1 key2).headers = true ∧
    ("*" ∈ get_allowed_origins_config origins_str →
      ("Access-Control-Allow-Credentials", "false") ∈
        (chatgolem_handle_preflight origin origins_str).headers ∧
      ("Access-Control-Allow-Credentials", "false") ∈
        (chatgolem origin origins_str body? key).headers) := by
  by_cases hw : "*" ∈ get_allowed_origins_config origins_str
  · refine ⟨?_, ?_, fun _ => ⟨?_, ?_⟩⟩
    · simp [lucid_handle_preflight, hw, credsOk, hasHeader]
    · simp [lucid, hw, credsOk, hasHeader]
    · simp [chatgolem_handle_preflight, hw]
    · simp [chatgolem, hw]
  · by_cases ho : origin.getD "" ≠ "" ∧ origin.getD "" ∈ get_allowed_origins_config origins_str
    · have hne : "*" ≠ origin.getD "" := fun h => hw (h ▸ ho.2)
      refine ⟨?_, ?_, fun h => absurd h hw⟩
      · simp [lucid_handle_preflight, hw, ho, credsOk, hasHeader, hne]
      · simp [lucid, hw, ho, credsOk, hasHeader, hne]
    · refine ⟨?_, ?_, fun h => absurd h hw⟩
      · simp [lucid_handle_preflight, hw, ho, credsOk, hasHeader]
      · simp [lucid, hw, ho, credsOk, hasHeader]

/-- Claim C1, witness for the amended theorem at a concrete input: with
the default wildcard policy, the chatgolem.py preflight response carries
`Access-Control-Allow-Credentials: false`, while the lucid.py handlers
satisfy the credentials invariant. -/
theorem C1_amended_witness :
    credsOk (lucid_handle_preflight none none "").headers = true ∧
    ("Access-Control-Allow-Credentials", "false") ∈
      (chatgolem_handle_preflight none none).headers :=
  ⟨(C1_amended_theorem none none "" none none none none).1,
   ((C1_amended_theorem none none "" none none none none).2.2 (by decide)).1⟩

/-- Claim C2, counterexample: the claim requires `Vary: Origin` on every
response that reflects a specific origin, including the 204 preflight; but
the lucid.py preflight for an exactly-matching origin answers 204
reflecting that origin with no `Vary` header at all. -/
theorem C2_counterexample :
    (lucid_handle_preflight (some "https://a.example") (some "https://a.example") "").status = 204 ∧
    ("Access-Control-Allow-Origin", "https://a.example") ∈
      (lucid_handle_preflight (some "https://a.example") (some "https://a.example") "").headers ∧
    hasHeader (lucid_handle_preflight (some "https://a.example") (some "https://a.example") "").headers
      "Vary" = false := by
  decide

/-- Claim C2, amended: every POST response (from the lucid.py `/lucid`
route and the chatgolem.py `/chatgolem` route) that carries an
`Access-Control-Allow-Origin` header — in particular every origin-specific
reflection — also carries `Vary: Origin`; the 204 preflight responses of
both files carry no `Vary` header. -/
theorem C2_amended_theorem (origin origins_str : Option String) (req_hdrs : String)
    (body? : Option JVal) (key1 key2 key : Option String) :
    (∀ v, ("Access-Control-Allow-Origin", v) ∈ (lucid origin origins_str body? key1 key2).headers →
      ("Vary", "Origin") ∈ (lucid origin origins_str body? key1 key2).headers) ∧
    (∀ v, ("Access-Control-Allow-Origin", v) ∈ (chatgolem origin origins_str body? key).headers →
      ("Vary", "Origin") ∈ (chatgolem origin origins_str body? key).headers) ∧
    hasHeader (lucid_handle_preflight origin origins_str req_hdrs).headers "Vary" = false ∧
    hasHeader (chatgolem_handle_preflight origin origins_str).headers "Vary" = false := by
  by_cases hw : "*" ∈ get_allowed_origins_config origins_str
  · refine ⟨?_, ?_, ?_, ?_⟩
    · intro v _; simp [lucid, hw]
    · intro v _; simp [chatgolem, hw]
    · simp [lucid_handle_preflight, hw, hasHeader]
    · simp [chatgolem_handle_preflight, hw, hasHeader]
  · by_cases ho : origin.getD "" ≠ "" ∧ origin.getD "" ∈ get_allowed_origins_config origins_str
    · refine ⟨?_, ?_, ?_, ?_⟩
      · intro v _; simp [lucid, hw, ho]
      · intro v _; simp [chatgolem, hw, ho]
      · simp [lucid_handle_preflight, hw, ho, hasHeader]
      · rcases origin with _ | o
        · simp at ho
        · obtain ⟨ho1, ho2⟩ := ho
          simp only [Option.getD_some] at ho1 ho2
          simp [chatgolem_handle_preflight, hw, ho1, ho2, hasHeader]
    · refine ⟨?_, ?_, ?_, ?_⟩
      · intro v hv; exact absurd hv (by simp [lucid, hw, ho])
      · intro v hv; exact absurd hv (by simp [chatgolem, hw, ho])
      · simp [lucid_handle_preflight, hw, ho, hasHeader]
      · simp [chatgolem_handle_preflight, hw, ho, hasHeader]

/-- Claim C2, witness for the amended theorem at a concrete input: a POST
to `/lucid` from an exactly-matching configured origin gets `Vary: Origin`
on its response, and the matching preflight response has no `Vary`. -/
theorem C2_amended_witness :
    ("Vary", "Origin") ∈
      (lucid (some "https://a.example") (some "https://a.example")
        (some (JVal.obj [("messages", JVal.arr [JVal.str "m"])])) (some "sk-test1") none).headers ∧
    hasHeader (lucid_handle_preflight (some "https://a.example") (some "https://a.example") "").headers
      "Vary" = false :=
  ⟨(C2_amended_theorem (some "https://a.example") (some "https://a.example") ""
      (some (JVal.obj [("messages", JVal.arr [JVal.str "m"])])) (some "sk-test1") none none).1
      "https://a.example" (by decide),
   (C2_amended_theorem (some "https://a.example") (some "https://a.example") ""
      (some (JVal.obj [("messages", JVal.arr [JVal.str "m"])])) (some "sk-test1") none none).2.2.1⟩

/-- Claim C10: every POST to `/lucid` denied by the origin check gets a 403
response with an empty header list — denial means no origin was selected
for reflection (`origin_to_send` is `None`), so the header-attaching branch
inside the denial path is unreachable and no `Access-Control-*` header is
emitted. -/
theorem C10_theorem (origin origins_str : Option String) (body? : Option JVal)
    (key1 key2 : Option String)
    (hd : (lucid origin origins_str body? key1 key2).status? = some 403) :
    (lucid origin origins_str body? key1 key2).headers = [] := by
  by_cases hw : "*" ∈ get_allowed_origins_config origins_str
  · exact absurd (by simpa [lucid, hw] using hd) (lucid_core_status_ne_403 body? key1 key2)
  · by_cases ho : origin.getD "" ≠ "" ∧ origin.getD "" ∈ get_allowed_origins_config origins_str
    · exact absurd (by simpa [lucid, hw, ho] using hd) (lucid_core_status_ne_403 body? key1 key2)
    · simp [lucid, hw, ho]

/-- Claim C10, witness: a concrete denied POST (origin not in the
configured list) yields status 403 and an empty header list. -/
theorem C10_witness :
    (lucid (some "https://evil.example") (some "https://a.example") none none none).status? =
      some 403 ∧
    (lucid (some "https://evil.example") (some "https://a.example") none none none).headers = [] :=
  ⟨by decide,
   C10_theorem (some "https://evil.example") (some "https://a.example") none none none (by decide)⟩

/-- Claim C3, counterexample: the claim states that a non-empty `messages`
list containing an entry without a valid role (`system`/`user`/`assistant`)
or without a string content is rejected with HTTP 400; but lucid.py, with a
configured key, forwards such a list upstream (the entry below has role
`"banana"` and a numeric content, yet the body reaches the upstream call
with no error status). -/
theorem C3_counterexample :
    specValidEntry (JVal.obj [("role", JVal.str "banana"), ("content", JVal.num 5)]) = false ∧
    (lucid_core
        (some (JVal.obj [("messages",
          JVal.arr [JVal.obj [("role", JVal.str "banana"), ("content", JVal.num 5)]])]))
        (some "sk-test") none).callsUpstream = true ∧
    (lucid_core
        (some (JVal.obj [("messages",
          JVal.arr [JVal.obj [("role", JVal.str "banana"), ("content", JVal.num 5)]])]))
        (some "sk-test") none).status? = none := by
  decide

/-- Claim C3, amended: the source performs no per-entry validation of
`messages`: for every request body whose `messages` is a non-empty JSON
list — whatever the entries, including ones lacking a valid role or a
string content — lucid.py (with a configured key) does not reject the
request; it forwards the message list verbatim in the upstream payload.
Only a missing, empty, or non-list `messages` value is rejected. -/
theorem C3_amended_theorem (fields : List (String × JVal)) (entries : List JVal)
    (key1 key2 : Option String) (hk : strTruthy (pyOrStr key1 key2) = true)
    (hm : dictGet fields "messages" = some (JVal.arr entries)) (hne : entries ≠ []) :
    (lucid_core (some (JVal.obj fields)) key1 key2).callsUpstream = true ∧
    ∃ p, (lucid_core (some (JVal.obj fields)) key1 key2).payload? = some p ∧
      ("messages", JVal.arr entries) ∈ p := by
  have hm' : (dictGet fields "messages").getD (JVal.arr []) = JVal.arr entries := by
    rw [hm]; rfl
  have ht : jvTruthy ((dictGet fields "messages").getD (JVal.arr [])) = true := by
    rw [hm']; simpa [jvTruthy, List.isEmpty_iff] using hne
  have hl : jvIsList ((dictGet fields "messages").getD (JVal.arr [])) = true := by
    rw [hm']; rfl
  rw [lucid_core_obj_eq fields key1 key2 hk ht hl]
  refine ⟨rfl, _, rfl, ?_⟩
  rw [hm']
  simp

/-- Claim C3, witness for the amended theorem: a concrete body whose single
message entry has an invalid role and a non-string content is forwarded
upstream by lucid.py with the list intact. -/
theorem C3_amended_witness :
    (lucid_core
        (some (JVal.obj [("messages", JVal.arr [JVal.obj [("role", JVal.str "tool")]])]))
        none (some "sk-test")).callsUpstream = true ∧
    ∃ p, (lucid_core
        (some (JVal.obj [("messages", JVal.arr [JVal.obj [("role", JVal.str "tool")]])]))
        none (some "sk-test")).payload? = some p ∧
      ("messages", JVal.arr [JVal.obj [("role", JVal.str "tool")]]) ∈ p :=
  C3_amended_theorem [("messages", JVal.arr [JVal.obj [("role", JVal.str "tool")]])]
    [JVal.obj [("role", JVal.str "tool")]] none (some "sk-test")
    (by decide) rfl (by simp)

/-- Claim C4, counterexample: the claim states that an allowed request with
valid JSON whose `messages` field is missing, empty or not a list gets
HTTP 400 and no upstream call; but chatgolem.py's check at line 177 tests
only falsiness, so an allowed request (default wildcard policy) whose
`messages` is the truthy non-list string `"hi"` is forwarded upstream with
no error status. -/
theorem C4_counterexample :
    (chatgolem none none (some (JVal.obj [("messages", JVal.str "hi")]))
      (some "sk-test")).status? = none ∧
    (chatgolem none none (some (JVal.obj [("messages", JVal.str "hi")]))
      (some "sk-test")).upstream?.isSome = true := by
  decide

/-- Claim C4, amended: with the API key configured, an allowed request
whose `messages` field is missing, empty, or not a list gets HTTP 400 with
an invalid-input `error` field and no upstream call from the lucid.py
`/lucid` route; chatgolem.py behaves the same only for a missing or empty
(falsy) `messages` value, and forwards a truthy non-list `messages` value
upstream. -/
theorem C4_amended_theorem (origin origins_str : Option String)
    (fields : List (String × JVal)) (key1 key2 key : Option String)
    (halw : "*" ∈ get_allowed_origins_config origins_str ∨
      (origin.getD "" ≠ "" ∧ origin.getD "" ∈ get_allowed_origins_config origins_str))
    (hk12 : strTruthy (pyOrStr key1 key2) = true) (hk : strTruthy key = true)
    (hbad : jvTruthy ((dictGet fields "messages").getD (JVal.arr [])) = false ∨
      jvIsList ((dictGet fields "messages").getD (JVal.arr [])) = false) :
    ((lucid origin origins_str (some (JVal.obj fields)) key1 key2).status? = some 400 ∧
     (lucid origin origins_str (some (JVal.obj fields)) key1 key2).error? = some "Bad Request" ∧
     (lucid origin origins_str (some (JVal.obj fields)) key1 key2).upstream? = none) ∧
    (jvTruthy ((dictGet fields "messages").getD (JVal.arr [])) = false →
      (chatgolem origin origins_str (some (JVal.obj fields)) key).status? = some 400 ∧
      (chatgolem origin origins_str (some (JVal.obj fields)) key).error? = some "Invalid input" ∧
      (chatgolem origin origins_str (some (JVal.obj fields)) key).upstream? = none) ∧
    (jvTruthy ((dictGet fields "messages").getD (JVal.arr [])) = true →
      (chatgolem origin origins_str (some (JVal.obj fields)) key).upstream?.isSome = true) := by
  obtain ⟨hs, he, hu⟩ := lucid_allowed_proj origin origins_str (some (JVal.obj fields)) key1 key2 halw
  obtain ⟨hs', he', hu'⟩ := chatgolem_allowed_proj origin origins_str (some (JVal.obj fields)) key halw
  have hc := lucid_core_obj_invalid fields key1 key2 hk12 hbad
  refine ⟨⟨?_, ?_, ?_⟩, fun hfalsy => ?_, fun htruthy => ?_⟩
  · rw [hs, hc]; rfl
  · rw [he, hc]; rfl
  · rw [hu, hc]; rfl
  · have hc' : chatgolem_core (some (JVal.obj fields)) key =
        CoreOutcome.errorResp "Invalid input" (some "Messages list cannot be empty.") 400 := by
      simp [chatgolem_core, hk, hfalsy]
    exact ⟨by rw [hs', hc']; rfl, by rw [he', hc']; rfl, by rw [hu', hc']; rfl⟩
  · rw [hu', chatgolem_core_obj_eq fields key hk htruthy]; rfl

/-- Claim C4, witness for the amended theorem at concrete inputs: a
request (default wildcard policy, configured key) with `messages = []`
yields 400, error `Bad Request`, and no upstream call on `/lucid`, and 400
with error `Invalid input` and no upstream call on chatgolem.py's
`/chatgolem`; while the truthy non-list `messages = "hi"` still yields 400
on `/lucid` but is forwarded upstream by chatgolem.py. -/
theorem C4_amended_witness :
    ((lucid none none (some (JVal.obj [("messages", JVal.arr [])]))
        (some "sk-test") none).status? = some 400 ∧
     (lucid none none (some (JVal.obj [("messages", JVal.arr [])]))
        (some "sk-test") none).error? = some "Bad Request" ∧
     (lucid none none (some (JVal.obj [("messages", JVal.arr [])]))
        (some "sk-test") none).upstream? = none) ∧
    ((chatgolem none none (some (JVal.obj [("messages", JVal.arr [])]))
        (some "sk-test")).status? = some 400 ∧
     (chatgolem none none (some (JVal.obj [("messages", JVal.arr [])]))
        (some "sk-test")).error? = some "Invalid input" ∧
     (chatgolem none none (some (JVal.obj [("messages", JVal.arr [])]))
        (some "sk-test")).upstream? = none) ∧
    (lucid none none (some (JVal.obj [("messages", JVal.str "hi")]))
        (some "sk-test") none).status? = some 400 ∧
    (chatgolem none none (some (JVal.obj [("messages", JVal.str "hi")]))
        (some "sk-test")).upstream?.isSome = true :=
  have h := C4_amended_theorem none none [("messages", JVal.arr [])]
    (some "sk-test") none (some "sk-test") (Or.inl (by decide)) (by decide) (by decide)
    (Or.inl (by decide))
  have h' := C4_amended_theorem none none [("messages", JVal.str "hi")]
    (some "sk-test") none (some "sk-test") (Or.inl (by decide)) (by decide) (by decide)
    (Or.inr (by decide))
  ⟨h.1, h.2.1 (by decide), h'.1.1, h'.2.2 (by decide)⟩

/-- Claim C5: in all three handlers an allowed request with valid JSON and
no configured server-side API key is answered with HTTP 500 and a
configuration error, and the failure is detected before any upstream call —
the outcome is an error response, never an upstream payload.  lucid.py
(which checks both historical key names) reports error `Configuration
Error`; chatgolem.py and src/api/index.py report `OpenAI API key not
found`. -/
theorem C5_theorem (origin origins_str : Option String) (body : JVal)
    (key1 key2 key : Option String)
    (halw : "*" ∈ get_allowed_origins_config origins_str ∨
      (origin.getD "" ≠ "" ∧ origin.getD "" ∈ get_allowed_origins_config origins_str))
    (hk12 : strTruthy (pyOrStr key1 key2) = false) (hk : strTruthy key = false) :
    ((lucid origin origins_str (some body) key1 key2).status? = some 500 ∧
     (lucid origin origins_str (some body) key1 key2).error? = some "Configuration Error" ∧
     (lucid origin origins_str (some body) key1 key2).upstream? = none) ∧
    ((chatgolem origin origins_str (some body) key).status? = some 500 ∧
     (chatgolem origin origins_str (some body) key).error? = some "OpenAI API key not found" ∧
     (chatgolem origin origins_str (some body) key).upstream? = none) ∧
    ((index_chatgolem (some body) key).status? = some 500 ∧
     (index_chatgolem (some body) key).callsUpstream = false) := by
  obtain ⟨hs, he, hu⟩ := lucid_allowed_proj origin origins_str (some body) key1 key2 halw
  obtain ⟨hs', he', hu'⟩ := chatgolem_allowed_proj origin origins_str (some body) key halw
  have hc : lucid_core (some body) key1 key2 =
      CoreOutcome.errorResp "Configuration Error"
        (some "OpenAI API key not configured on server.") 500 := by
    simp [lucid_core, hk12]
  have hc' : chatgolem_core (some body) key =
      CoreOutcome.errorResp "OpenAI API key not found" none 500 := by
    simp [chatgolem_core, hk]
  refine ⟨⟨by rw [hs, hc]; rfl, by rw [he, hc]; rfl, by rw [hu, hc]; rfl⟩,
    ⟨by rw [hs', hc']; rfl, by rw [he', hc']; rfl, by rw [hu', hc']; rfl⟩, ?_, ?_⟩ <;>
    simp [index_chatgolem, hk, IndexOutcome.status?, IndexOutcome.callsUpstream]

/-- Claim C5, witness: a concrete allowed request (wildcard policy, both
key variables unset) yields the 500 configuration error with no upstream
call in all three handlers. -/
theorem C5_witness :
    (lucid none none (some (JVal.obj [("messages", JVal.arr [JVal.str "m"])])) none none).status? =
      some 500 ∧
    (lucid none none (some (JVal.obj [("messages", JVal.arr [JVal.str "m"])])) none
      none).error? = some "Configuration Error" ∧
    (index_chatgolem (some (JVal.obj [("messages", JVal.arr [JVal.str "m"])]))
      none).callsUpstream = false :=
  have h := C5_theorem none none (JVal.obj [("messages", JVal.arr [JVal.str "m"])])
    none none none (Or.inl (by decide)) (by decide) (by decide)
  ⟨h.1.1, h.1.2.1, h.2.2.2⟩

/-- Claim C6: temperature resolution — a supplied value that fails to
convert with `float()` resolves to the default `1.0`; a converted value
outside `[0.0, 2.0]` resolves to `1.0`; an in-range value is kept; in
particular `2.5` resolves to `1.0` and `0.0` is kept as `0.0`.  Resolution
is total (never fails the request): with a configured key and a valid
`messages` list the request reaches the upstream call whatever the
`temperature` field holds. -/
theorem C6_theorem :
    (∀ v, pyFloat v = none → resolve_temperature (some v) = 1) ∧
    (∀ v q, pyFloat v = some q → ¬ (0 ≤ q ∧ q ≤ 2) → resolve_temperature (some v) = 1) ∧
    (∀ v q, pyFloat v = some q → 0 ≤ q → q ≤ 2 → resolve_temperature (some v) = q) ∧
    resolve_temperature (some (JVal.num (2.5 : ℚ))) = 1 ∧
    resolve_temperature (some (JVal.num 0)) = 0 ∧
    (∀ fields key1 key2, strTruthy (pyOrStr key1 key2) = true →
      jvTruthy ((dictGet fields "messages").getD (JVal.arr [])) = true →
      jvIsList ((dictGet fields "messages").getD (JVal.arr [])) = true →
      (lucid_core (some (JVal.obj fields)) key1 key2).callsUpstream = true) := by
  refine ⟨?_, ?_, ?_, ?_, ?_, ?_⟩
  · intro v h; simp only [resolve_temperature, h]
  · intro v q h hr; simp only [resolve_temperature, h]; rw [if_neg hr]
  · intro v q h h0 h2; simp only [resolve_temperature, h]; rw [if_pos ⟨h0, h2⟩]
  · simp only [resolve_temperature, pyFloat]
    rw [if_neg]; intro h; exact absurd h.2 (by norm_num)
  · simp only [resolve_temperature, pyFloat]
    rw [if_pos (by norm_num)]
  · intro fields key1 key2 hk hm hl
    rw [lucid_core_obj_eq fields key1 key2 hk hm hl]; rfl

/-- Claim C6, witness: the three resolution branches at concrete inputs —
an unconvertible value (a JSON list) gives `1.0`, the out-of-range `2.5`
gives `1.0`, the in-range `0.0` is kept — and a concrete request with a
garbage `temperature` string still reaches the upstream call. -/
theorem C6_witness :
    resolve_temperature (some (JVal.arr [])) = 1 ∧
    resolve_temperature (some (JVal.num 3)) = 1 ∧
    resolve_temperature (some (JVal.num 0)) = 0 ∧
    (lucid_core
        (some (JVal.obj [("messages", JVal.arr [JVal.str "m"]),
          ("temperature", JVal.str "oops")]))
        (some "sk-test") none).callsUpstream = true :=
  ⟨C6_theorem.1 (JVal.arr []) rfl,
   C6_theorem.2.1 (JVal.num 3) 3 rfl (by norm_num),
   C6_theorem.2.2.1 (JVal.num 0) 0 rfl (by norm_num) (by norm_num),
   C6_theorem.2.2.2.2.2 [("messages", JVal.arr [JVal.str "m"]), ("temperature", JVal.str "oops")]
     (some "sk-test") none (by decide) (by decide) (by decide)⟩

/-- Claim C7: `resolveParameters` is idempotent — feeding the resolved
`{temperature, seed}` back through the resolution (the temperature as a
JSON number, the seed as a JSON number when set and as an absent field when
unset) yields the same `{temperature, seed}`: the resolved temperature is
always in `[0, 2]` and hence kept, and `int()` is the identity on an
already-resolved integer seed. -/
theorem C7_theorem (temp seed : Option JVal) :
    resolve_parameters (some (JVal.num (resolve_parameters temp seed).1))
      ((resolve_parameters temp seed).2.map (fun z : ℤ => JVal.num (z : ℚ))) =
    resolve_parameters temp seed := by
  obtain ⟨h0, h2⟩ := resolve_temperature_mem_range temp
  simp only [resolve_parameters, Prod.mk.injEq]
  constructor
  · exact resolve_temperature_num_of_mem _ h0 h2
  · rcases hs : resolve_seed seed with _ | z
    · rfl
    · exact resolve_seed_intCast z

/-- Claim C8: for every allowed, validated request that reaches the
upstream call, the outbound JSON payload contains the keys `model`,
`messages` and `temperature`, and contains `seed` exactly when a parseable
integer seed was supplied.  The upstream calls reachable in the program
are those of lucid.py (lines 330-337) and chatgolem.py (lines 220-226) —
src/api/index.py raises `NameError` at import (stray `f` on line 1), so
its `{model, messages}` payload builder never runs — and both live
handlers send exactly the keys
`model, messages, temperature` plus `seed` when one resolved. -/
theorem C8_theorem (fields : List (String × JVal)) (key1 key2 key : Option String)
    (hk12 : strTruthy (pyOrStr key1 key2) = true) (hk : strTruthy key = true)
    (hm : jvTruthy ((dictGet fields "messages").getD (JVal.arr [])) = true)
    (hl : jvIsList ((dictGet fields "messages").getD (JVal.arr [])) = true) :
    (∃ p, (lucid_core (some (JVal.obj fields)) key1 key2).payload? = some p ∧
      p.map Prod.fst = ["model", "messages", "temperature"] ++
        (if (resolve_seed (dictGetOrNone fields "seed")).isSome then ["seed"] else []) ∧
      ("seed" ∈ p.map Prod.fst ↔ (resolve_seed (dictGetOrNone fields "seed")).isSome = true)) ∧
    (∃ p, (chatgolem_core (some (JVal.obj fields)) key).payload? = some p ∧
      p.map Prod.fst = ["model", "messages", "temperature"] ++
        (if (resolve_seed (dictGetOrNone fields "seed")).isSome then ["seed"] else []) ∧
      ("seed" ∈ p.map Prod.fst ↔ (resolve_seed (dictGetOrNone fields "seed")).isSome = true)) := by
  constructor
  · rw [lucid_core_obj_eq fields key1 key2 hk12 hm hl]
    refine ⟨_, rfl, ?_⟩
    rcases resolve_seed (dictGetOrNone fields "seed") with _ | s <;> simp
  · rw [chatgolem_core_obj_eq fields key hk hm]
    refine ⟨_, rfl, ?_⟩
    rcases resolve_seed (dictGetOrNone fields "seed") with _ | s <;> simp

/-- Claim C8, witness: a concrete request supplying the parseable seed `7`
yields a lucid.py payload with keys `model, messages, temperature, seed`,
and the same request without a seed yields a chatgolem.py payload with
keys `model, messages, temperature` only. -/
theorem C8_witness :
    (∃ p, (lucid_core
        (some (JVal.obj [("messages", JVal.arr [JVal.str "m"]), ("seed", JVal.num 7)]))
        (some "sk-test") none).payload? = some p ∧
      p.map Prod.fst = ["model", "messages", "temperature", "seed"]) ∧
    (∃ p, (chatgolem_core
        (some (JVal.obj [("messages", JVal.arr [JVal.str "m"])]))
        (some "sk-test")).payload? = some p ∧
      p.map Prod.fst = ["model", "messages", "temperature"]) :=
  have h := C8_theorem [("messages", JVal.arr [JVal.str "m"]), ("seed", JVal.num 7)]
    (some "sk-test") none (some "sk-test") (by decide) (by decide) (by decide) (by decide)
  have h' := C8_theorem [("messages", JVal.arr [JVal.str "m"])]
    (some "sk-test") none (some "sk-test") (by decide) (by decide) (by decide) (by decide)
  ⟨by
    obtain ⟨p, hp, hkeys, _⟩ := h.1
    exact ⟨p, hp, by rw [hkeys]; rfl⟩,
   by
    obtain ⟨p, hp, hkeys, _⟩ := h'.2
    exact ⟨p, hp, by rw [hkeys]; rfl⟩⟩

/-- Claim C9: wildcard takes precedence over an exact match — whenever the
configured allow-list contains `"*"` (possibly alongside specific origins,
and whatever the request origin, even one listed explicitly), the lucid.py
preflight and POST responses reflect `"*"` with no credentials header, and
the chatgolem.py POST response reflects `"*"` with credentials `"false"`;
conversely, origin-specific reflection with
`Access-Control-Allow-Credentials: true` — on the lucid.py POST, the
lucid.py preflight, or the chatgolem.py POST — is only reachable when
`"*"` is absent from the configured list. -/
theorem C9_theorem (origin origins_str : Option String) (req_hdrs : String)
    (body? : Option JVal) (key1 key2 key : Option String) :
    ("*" ∈ get_allowed_origins_config origins_str →
      (lucid_handle_preflight origin origins_str req_hdrs).status = 204 ∧
      ("Access-Control-Allow-Origin", "*") ∈
        (lucid_handle_preflight origin origins_str req_hdrs).headers ∧
      hasHeader (lucid_handle_preflight origin origins_str req_hdrs).headers
        "Access-Control-Allow-Credentials" = false ∧
      ("Access-Control-Allow-Origin", "*") ∈ (lucid origin origins_str body? key1 key2).headers ∧
      hasHeader (lucid origin origins_str body? key1 key2).headers
        "Access-Control-Allow-Credentials" = false ∧
      ("Access-Control-Allow-Origin", "*") ∈ (chatgolem origin origins_str body? key).headers ∧
      ("Access-Control-Allow-Credentials", "false") ∈
        (chatgolem origin origins_str body? key).headers) ∧
    (∀ v, v ≠ "*" →
      ("Access-Control-Allow-Origin", v) ∈ (lucid origin origins_str body? key1 key2).headers →
      ("Access-Control-Allow-Credentials", "true") ∈
        (lucid origin origins_str body? key1 key2).headers →
      "*" ∉ get_allowed_origins_config origins_str) ∧
    (("Access-Control-Allow-Credentials", "true") ∈
        (lucid_handle_preflight origin origins_str req_hdrs).headers →
      "*" ∉ get_allowed_origins_config origins_str) ∧
    (("Access-Control-Allow-Credentials", "true") ∈
        (chatgolem origin origins_str body? key).headers →
      "*" ∉ get_allowed_origins_config origins_str) := by
  refine ⟨?_, ?_, ?_, ?_⟩
  · intro hw
    refine ⟨?_, ?_, ?_, ?_, ?_, ?_, ?_⟩
    · simp [lucid_handle_preflight, hw]
    · simp [lucid_handle_preflight, hw]
    · simp [lucid_handle_preflight, hw, hasHeader]
    · simp [lucid, hw]
    · simp [lucid, hw, hasHeader]
    · simp [chatgolem, hw]
    · simp [chatgolem, hw]
  · intro v hv hmem _hcred hw
    have : v = "*" := by
      simpa [lucid, hw] using hmem
    exact hv this
  · intro hcred hw
    simp [lucid_handle_preflight, hw] at hcred
  · intro hcred hw
    simp [chatgolem, hw] at hcred

/-- Claim C9, witness: with the allow-list `https://a.example,*` and a
request from `https://a.example` (an exactly-listed origin), the POST
response still reflects `"*"` and carries no credentials header; and a
concrete non-wildcard reflection with credentials (list
`https://a.example` only) implies `"*"` is indeed absent from that list. -/
theorem C9_witness :
    (("Access-Control-Allow-Origin", "*") ∈
      (lucid (some "https://a.example") (some "https://a.example,*") none none none).headers ∧
     hasHeader (lucid (some "https://a.example") (some "https://a.example,*") none none
       none).headers "Access-Control-Allow-Credentials" = false) ∧
    "*" ∉ get_allowed_origins_config (some "https://a.example") :=
  have h := C9_theorem (some "https://a.example") (some "https://a.example,*") ""
    none none none none
  have h' := C9_theorem (some "https://a.example") (some "https://a.example") ""
    none none none none
  ⟨⟨(h.1 (by decide)).2.2.2.1, (h.1 (by decide)).2.2.2.2.1⟩,
   h'.2.1 "https://a.example" (by decide) (by decide) (by decide)⟩

end LucidTool
